import Mathlib

set_option maxRecDepth 40000

/-!
Shallow embedding of `src/Backend/Lambda_functions/doctor_assign.py`
(medicure-healthbot): the slot allocator, the schedule repository's
slot-removal primitive, the booking orchestrator and the action router,
together with proofs settling the frozen claims about them.

Conventions of the embedding:
* DynamoDB tables are modelled as in-memory lists of records carried in a
  `DB` value; `scan` with an equality filter is `List.filter`, `items[0]`
  is `List.head?`, `get_item` by key is `List.find?`.
* Python `datetime` values are the `PyDateTime` structure; comparison of
  datetimes is field-lexicographic, as in CPython.
* `datetime.strptime(ts, "%Y-%m-%dT%H:%M:%SZ")` is `parseTimestamp`;
  a `ValueError` (regex mismatch, or constructor rejection such as
  day-out-of-range-for-month or second 60/61) is `none`.
* `int(str)` is `pyInt`; `ValueError` is `none`.
* Python truthiness of an optional string (`None` and `""` falsy) is
  `truthy`.
* The external collaborators (email lambda, report-insight lookup) enter
  as parameters: the email outcome as a boolean, the insight lookup as a
  function.
-/

/-- Python `datetime` value (UTC, no tzinfo), fields as produced by
`datetime.strptime`. -/
structure PyDateTime where
  year : Nat
  month : Nat
  day : Nat
  hour : Nat
  minute : Nat
  second : Nat
deriving DecidableEq, Repr

/-- Field-lexicographic strict comparison of datetimes, as CPython compares
`datetime` objects. -/
def PyDateTime.ltb (a b : PyDateTime) : Bool :=
  if a.year ≠ b.year then a.year < b.year
  else if a.month ≠ b.month then a.month < b.month
  else if a.day ≠ b.day then a.day < b.day
  else if a.hour ≠ b.hour then a.hour < b.hour
  else if a.minute ≠ b.minute then a.minute < b.minute
  else decide (a.second < b.second)

/-- Numeric value of a digit character. -/
def dv (c : Char) : Nat := c.toNat - 48

/-- Read exactly four digit characters (the `%Y` directive). -/
def readYear : List Char → Option (Nat × List Char)
  | a :: b :: c :: d :: rest =>
    if a.isDigit ∧ b.isDigit ∧ c.isDigit ∧ d.isDigit then
      some (((dv a * 10 + dv b) * 10 + dv c) * 10 + dv d, rest)
    else none
  | _ => none

/-- Read one or two digit characters greedily, returning the value, the
number of digits consumed and the remainder.  This matches the behaviour
of CPython strptime directives such as `%m` (`1[0-2]|0[1-9]|[1-9]`): the
two-digit alternatives are tried first, and because every directive in the
format at hand is followed by a literal separator (`-`, `T`, `:`, `Z`,
never a digit), backtracking to the one-digit alternative can never
succeed once two digits are present. -/
def read12 : List Char → Option (Nat × Nat × List Char)
  | a :: b :: rest =>
    if a.isDigit then
      if b.isDigit then some (dv a * 10 + dv b, 2, rest)
      else some (dv a, 1, b :: rest)
    else none
  | [a] => if a.isDigit then some (dv a, 1, ([] : List Char)) else none
  | [] => none

/-- Expect a literal character. -/
def expectChar (c : Char) : List Char → Option (List Char)
  | x :: rest => if x = c then some rest else none
  | [] => none

/-- `%m`: two digits must encode 1..12 (`1[0-2]|0[1-9]`), a single digit
must be 1..9 (`[1-9]`). -/
def monthOk (v n : Nat) : Bool :=
  if n = 2 then 1 ≤ v ∧ v ≤ 12 else 1 ≤ v ∧ v ≤ 9

/-- `%d`: two digits must encode 1..31, a single digit 1..9. -/
def dayOk (v n : Nat) : Bool :=
  if n = 2 then 1 ≤ v ∧ v ≤ 31 else 1 ≤ v ∧ v ≤ 9

/-- `%H`: two digits must encode 0..23, a single digit is free. -/
def hourOk (v n : Nat) : Bool :=
  if n = 2 then v ≤ 23 else true

/-- `%M`: two digits must encode 0..59, a single digit is free. -/
def minuteOk (v n : Nat) : Bool :=
  if n = 2 then v ≤ 59 else true

/-- `%S`: the regex admits 0..61 on two digits, but the `datetime`
constructor then rejects 60 and 61 with `ValueError`, which the callers
treat exactly like a parse failure; the net acceptance is 0..59. -/
def secondOk (v n : Nat) : Bool :=
  if n = 2 then v ≤ 59 else true

/-- Gregorian month length, as validated by the `datetime` constructor. -/
def daysInMonth (y m : Nat) : Nat :=
  if m = 2 then (if y % 4 = 0 ∧ (y % 100 ≠ 0 ∨ y % 400 = 0) then 29 else 28)
  else if m = 4 ∨ m = 6 ∨ m = 9 ∨ m = 11 then 30
  else 31

/-- `datetime.strptime(s, "%Y-%m-%dT%H:%M:%SZ")`, returning `none` on any
`ValueError` (pattern mismatch, unconsumed trailing input, year 0, day out
of range for the month, or second 60/61). -/
def parseTimestamp (s : String) : Option PyDateTime :=
  match readYear s.data with
  | none => none
  | some (y, cs1) =>
  match expectChar '-' cs1 with
  | none => none
  | some cs2 =>
  match read12 cs2 with
  | none => none
  | some (mo, nmo, cs3) =>
  if monthOk mo nmo then
  match expectChar '-' cs3 with
  | none => none
  | some cs4 =>
  match read12 cs4 with
  | none => none
  | some (d, nd, cs5) =>
  if dayOk d nd then
  match expectChar 'T' cs5 with
  | none => none
  | some cs6 =>
  match read12 cs6 with
  | none => none
  | some (h, nh, cs7) =>
  if hourOk h nh then
  match expectChar ':' cs7 with
  | none => none
  | some cs8 =>
  match read12 cs8 with
  | none => none
  | some (mi, nmi, cs9) =>
  if minuteOk mi nmi then
  match expectChar ':' cs9 with
  | none => none
  | some cs10 =>
  match read12 cs10 with
  | none => none
  | some (sec, ns, cs11) =>
  if secondOk sec ns then
  match expectChar 'Z' cs11 with
  | none => none
  | some cs12 =>
  if cs12 = [] ∧ 1 ≤ y ∧ d ≤ daysInMonth y mo then
    some ⟨y, mo, d, h, mi, sec⟩
  else none
  else none
  else none
  else none
  else none
  else none

/-- Digit run with single underscores allowed between digits, as accepted
by CPython `int(str)` (PEP 515); accumulates the value. -/
def digitsUAux : List Char → Nat → Option Nat
  | [], acc => some acc
  | '_' :: c :: rest, acc =>
    if c.isDigit then digitsUAux rest (acc * 10 + dv c) else none
  | ['_'], _ => none
  | c :: rest, acc =>
    if c.isDigit then digitsUAux rest (acc * 10 + dv c) else none

/-- A nonempty digit run (underscore-separated) starting with a digit. -/
def digitsU : List Char → Option Nat
  | c :: rest => if c.isDigit then digitsUAux rest (dv c) else none
  | [] => none

/-- Python whitespace stripped by `str.strip()` / ignored by `int(str)`. -/
def isPySpace (c : Char) : Bool :=
  c = ' ' ∨ c = '\t' ∨ c = '\n' ∨ c = '\r' ∨ c = '\x0b' ∨ c = '\x0c'

/-- `int(s)` for a string argument: optional surrounding whitespace, an
optional single sign, then digits (underscore-grouped); `ValueError` is
`none`. -/
def pyInt (s : String) : Option Int :=
  let cs := ((s.data.dropWhile isPySpace).reverse.dropWhile isPySpace).reverse
  match cs with
  | '+' :: rest => (digitsU rest).map Int.ofNat
  | '-' :: rest => (digitsU rest).map (fun n => -(n : Int))
  | rest => (digitsU rest).map Int.ofNat

/-- `needle in hay` for Python strings: contiguous substring containment. -/
def strContains (hay needle : String) : Bool :=
  hay.data.tails.any (fun t => needle.data.isPrefixOf t)

/-- `str.strip()` (whitespace at both ends removed). -/
def pyStrip (s : String) : String :=
  ⟨((s.data.dropWhile isPySpace).reverse.dropWhile isPySpace).reverse⟩

/-- ASCII lower-casing of one character. -/
def charLower (c : Char) : Char :=
  if 65 ≤ c.toNat ∧ c.toNat ≤ 90 then Char.ofNat (c.toNat + 32) else c

/-- `str.lower()` restricted to ASCII case mapping (all the symptom
keywords scanned against it are ASCII). -/
def pyLower (s : String) : String := ⟨s.data.map charLower⟩

/-- Lexicographic code-point comparison of character lists, the order
Python uses to compare and sort strings. -/
def listLeb : List Char → List Char → Bool
  | [], _ => true
  | _ :: _, [] => false
  | a :: as, b :: bs =>
    if a.toNat < b.toNat then true
    else if b.toNat < a.toNat then false
    else listLeb as bs

def listLeb_total (as : List Char) : ∀ bs : List Char,
    listLeb as bs = true ∨ listLeb bs as = true := by
  induction as with
  | nil => intro bs; left; rfl
  | cons a as ih =>
    intro bs
    cases bs with
    | nil => right; rfl
    | cons b bs =>
      simp only [listLeb]
      rcases Nat.lt_trichotomy a.toNat b.toNat with h | h | h
      · left; simp [h]
      · have h1 : ¬ a.toNat < b.toNat := by omega
        have h2 : ¬ b.toNat < a.toNat := by omega
        simp only [h1, h2, if_false]
        exact ih bs
      · right; simp [h]

def listLeb_trans : ∀ (as bs cs : List Char),
    listLeb as bs = true → listLeb bs cs = true → listLeb as cs = true := by
  intro as
  induction as with
  | nil => intro bs cs _ _; rfl
  | cons a as ih =>
    intro bs cs h1 h2
    cases bs with
    | nil => exact absurd h1 (by simp [listLeb])
    | cons b bs =>
      cases cs with
      | nil => exact absurd h2 (by simp [listLeb])
      | cons c cs =>
        simp only [listLeb] at h1 h2 ⊢
        rcases Nat.lt_trichotomy a.toNat b.toNat with hab | hab | hab
        · rcases Nat.lt_trichotomy b.toNat c.toNat with hbc | hbc | hbc
          · have h : a.toNat < c.toNat := hab.trans hbc
            simp [h]
          · have h : a.toNat < c.toNat := hbc ▸ hab
            simp [h]
          · have hn : ¬ b.toNat < c.toNat := by omega
            simp [hn, hbc] at h2
        · have hab1 : ¬ a.toNat < b.toNat := by omega
          have hab2 : ¬ b.toNat < a.toNat := by omega
          simp only [hab1, hab2, if_false] at h1
          rcases Nat.lt_trichotomy b.toNat c.toNat with hbc | hbc | hbc
          · have h : a.toNat < c.toNat := by omega
            simp [h]
          · have hac1 : ¬ a.toNat < c.toNat := by omega
            have hac2 : ¬ c.toNat < a.toNat := by omega
            have hbc1 : ¬ b.toNat < c.toNat := by omega
            have hbc2 : ¬ c.toNat < b.toNat := by omega
            simp only [hbc1, hbc2, if_false] at h2
            simp only [hac1, hac2, if_false]
            exact ih bs cs h1 h2
          · have hn : ¬ b.toNat < c.toNat := by omega
            simp [hn, hbc] at h2
        · have hn : ¬ a.toNat < b.toNat := by omega
          simp [hn, hab] at h1

/-- Python `a <= b` on strings, as a relation usable by the sorts. -/
def strLe (a b : String) : Prop := listLeb a.data b.data = true

instance : DecidableRel strLe :=
  fun a b => inferInstanceAs (Decidable (listLeb a.data b.data = true))

instance : IsTotal String strLe := ⟨fun a b => listLeb_total a.data b.data⟩

instance : IsTrans String strLe :=
  ⟨fun a b c => listLeb_trans a.data b.data c.data⟩

/-- A stored slot value as delivered by the schedule table: a plain
string, a DynamoDB-attribute-style wrapper `{'S': value}`, or anything
else. -/
inductive SlotVal where
  | str (v : String)
  | sTagged (v : String)
  | other
deriving DecidableEq, Repr

/-- The value decoding used by `remove_timeslot_by_timestamp` (and by the
list-shaped branch of the allocator): a plain string stands for itself, a
`{'S': v}` wrapper yields `v`, anything else is undecodable. -/
def decodeSlot : SlotVal → Option String
  | .str v => some v
  | .sTagged v => some v
  | .other => none

/-- `sorted(raw_timeslots.items(), key=lambda x: x[0])` orders the dict
items by slot key (Python string order on the keys). -/
def keyLe (a b : String × SlotVal) : Prop := listLeb a.1.data b.1.data = true

instance : DecidableRel keyLe :=
  fun a b => inferInstanceAs (Decidable (listLeb a.1.data b.1.data = true))

instance : IsTotal (String × SlotVal) keyLe :=
  ⟨fun a b => listLeb_total a.1.data b.1.data⟩

instance : IsTrans (String × SlotVal) keyLe :=
  ⟨fun a b c => listLeb_trans a.1.data b.1.data c.1.data⟩

/-- The `timeslots` attribute of a schedule record: a mapping
(insertion-ordered key/value pairs, as a Python dict), a list, or some
other shape. -/
inductive Timeslots where
  | dict (entries : List (String × SlotVal))
  | list (elems : List SlotVal)
  | other
deriving DecidableEq, Repr

/-- A row of the doctor-schedules table. -/
structure ScheduleRec where
  schedule_id : String
  doctor_id : String
  timeslots : Timeslots
deriving DecidableEq, Repr

/-- A row of the doctors table. -/
structure DoctorRec where
  doctor_id : String
  name : String
  specialty : String
  location : String
deriving DecidableEq, Repr

/-- The data store visible to the lambda: the doctors table and the
doctor-schedules table (the medical-summary table is behind the external
report-insight collaborator and enters as a function parameter). -/
structure DB where
  doctors : List DoctorRec
  schedules : List ScheduleRec
deriving DecidableEq, Repr

/-- `scan(FilterExpression=Attr('doctor_id').eq(d))` over the schedules
table followed by `items[0]`. -/
def scheduleFor (db : DB) (doctor_id : String) : Option ScheduleRec :=
  (db.schedules.filter (fun r => r.doctor_id = doctor_id)).head?

/-- Lines 149-166: flatten the raw `timeslots` attribute into the list of
timestamp strings, in the order the Python loop produces them.  In the
dict shape the items are first sorted by slot key and only plain-string
values are kept (a wrapped value only draws a warning and is skipped); in
the list shape both `{'S': v}` wrappers and plain strings are accepted. -/
def extractTimeslotStrs : Timeslots → List String
  | .dict entries =>
      (entries.insertionSort keyLe).filterMap
        (fun e => match e.2 with
          | .str v => some v
          | _ => none)
  | .list elems => elems.filterMap decodeSlot
  | .other => []

/-- The future filter of lines 174-181: keep a string iff it parses under
the fixed format and is strictly later than `now`. -/
def isFutureSlot (now : PyDateTime) (ts : String) : Bool :=
  match parseTimestamp ts with
  | some t => PyDateTime.ltb now t
  | none => false

/-- `get_next_timeslots_for_doctor` (lines 125-191): fetch the schedule,
normalize, keep strictly-future parseable entries, sort the strings
(Python sorts the string list lexicographically) and truncate to 3. -/
def get_next_timeslots_for_doctor (db : DB) (doctor_id : String)
    (now : PyDateTime) : List String :=
  match scheduleFor db doctor_id with
  | none => []
  | some rec =>
      let strs := extractTimeslotStrs rec.timeslots
      let fut := strs.filter (isFutureSlot now)
      (fut.insertionSort strLe).take 3

/-- `get_doctor_id_by_name` (lines 194-222): exact-match scan first, then
a contains scan, taking the first record of whichever scan hit. -/
def get_doctor_id_by_name (db : DB) (name : String) : Option String :=
  let exact := db.doctors.filter (fun r => r.name = name)
  let items := if exact.isEmpty then
      db.doctors.filter (fun r => strContains r.name name)
    else exact
  items.head?.map (fun r => r.doctor_id)

/-- Lines 256-270: the first entry of the timeslots mapping whose decoded
value equals the requested timestamp (undecodable values are skipped with
a warning and the loop continues). -/
def locateSlotKey (entries : List (String × SlotVal)) (target : String) :
    Option String :=
  (entries.find? (fun e => decodeSlot e.2 = some target)).map (fun e => e.1)

/-- The `update_item` of lines 278-283 applied to the store: the entry
under `slotKey` is removed from the timeslots mapping of the record keyed
by `schedule_id`.  The `UpdateExpression` carries no
`ConditionExpression`, so this write succeeds whether or not the key is
still present (a `REMOVE` of an absent document path is a silent no-op). -/
def applyRemove (db : DB) (schedule_id slotKey : String) : DB :=
  { db with
    schedules := db.schedules.map (fun r =>
      if r.schedule_id = schedule_id then
        { r with timeslots :=
            match r.timeslots with
            | .dict entries => .dict (entries.filter (fun e => e.1 ≠ slotKey))
            | t => t }
      else r) }

/-- `remove_timeslot_by_timestamp` (lines 225-290) run to completion in
isolation.  Returns the removed slot key (the non-`None` outcome) and the
updated store.  `none` is returned when the doctor has no schedule, when
the timeslots attribute is not a mapping (`.items()` raises
`AttributeError`, swallowed by the catch-all), when no entry decodes to
the requested timestamp — or when the matching slot key is falsy (the
code guards with `if not slot_key_to_remove`, so the empty-string key is
treated as "not found"). -/
def remove_timeslot_by_timestamp (db : DB) (doctor_id selected_timestamp : String) :
    Option String × DB :=
  match scheduleFor db doctor_id with
  | none => (none, db)
  | some sched =>
    match sched.timeslots with
    | .dict entries =>
        match locateSlotKey entries selected_timestamp with
        | none => (none, db)
        | some k =>
            if k = "" then (none, db)
            else (some k, applyRemove db sched.schedule_id k)
    | _ => (none, db)

/-- `"%B"` month names. -/
def monthName : Nat → String
  | 1 => "January" | 2 => "February" | 3 => "March" | 4 => "April"
  | 5 => "May" | 6 => "June" | 7 => "July" | 8 => "August"
  | 9 => "September" | 10 => "October" | 11 => "November" | 12 => "December"
  | _ => ""

/-- Zero-pad to two digits. -/
def pad2 (n : Nat) : String := if n < 10 then "0" ++ toString n else toString n

/-- `dt.strftime("%B %d, %Y at %I:%M %p")` (line 352). -/
def formatApptTime (t : PyDateTime) : String :=
  let h12 := if t.hour % 12 = 0 then 12 else t.hour % 12
  monthName t.month ++ " " ++ pad2 t.day ++ ", " ++ toString t.year ++
    " at " ++ pad2 h12 ++ ":" ++ pad2 t.minute ++ " " ++
    (if t.hour < 12 then "AM" else "PM")

/-- The booking result dictionary.  The failure constructors carry only
`success=False` and a message; the optional fields exist only on the
success dictionary. -/
structure BookingResult where
  success : Bool
  message : String
  doctor_name : Option String := none
  slot_number : Option String := none
  appointment_datetime : Option String := none
  timestamp : Option String := none
  unique_id : Option String := none
  email_sent : Option Bool := none
deriving DecidableEq, Repr

/-- Python truthiness of an optional string: `None` and `""` are falsy. -/
def truthy : Option String → Bool
  | some s => s ≠ ""
  | none => false

/-- `x or default` for optional strings. -/
def orDefault (x : Option String) (d : String) : String :=
  match x with
  | some s => if s = "" then d else s
  | none => d

/-- `book_appointment_slot` (lines 293-386).  `emailOk` is the outcome of
the external email-lambda invocation (`send_confirmation_email` catches
its own exceptions and returns a boolean); `uuidToken` stands for
`str(uuid.uuid4())[:8].upper()`.  The patient/symptom fields flow only
into the email payload consumed by the external collaborator, so they do
not appear among the arguments of the model.  Returns the result
dictionary and the store after the call. -/
def book_appointment_slot (db : DB) (doctor_id selected_slot : String)
    (doctor_name session_id : Option String) (now : PyDateTime)
    (emailOk : Bool) (uuidToken : String) : BookingResult × DB :=
  let timeslots := get_next_timeslots_for_doctor db doctor_id now
  if timeslots.isEmpty then
    ({ success := false,
       message := "No available timeslots found for this doctor." }, db)
  else
    match pyInt selected_slot with
    | none =>
        ({ success := false,
           message := "Invalid slot number format. Please provide a number." }, db)
    | some n =>
        let slot_index : Int := n - 1
        if slot_index < 0 ∨ (timeslots.length : Int) ≤ slot_index then
          ({ success := false,
             message := "Invalid slot number. Please select from 1 to " ++
               toString timeslots.length ++ "." }, db)
        else
          let selected_timestamp := timeslots.getD slot_index.toNat ""
          match remove_timeslot_by_timestamp db doctor_id selected_timestamp with
          | (none, db1) =>
              ({ success := false,
                 message := "Unable to book this slot. It may have been taken by another patient. Please select a different slot." }, db1)
          | (some _, db1) =>
              match parseTimestamp selected_timestamp with
              | none =>
                  -- strptime on line 351 would raise into the catch-all of
                  -- line 381; the already-performed removal is not reverted.
                  ({ success := false,
                     message := "An error occurred while booking the appointment. Please try again." }, db1)
              | some dt =>
                  let formatted := formatApptTime dt
                  let unique_id := orDefault session_id uuidToken
                  let email_sent := emailOk
                  ({ success := true,
                     message := "Successfully booked Slot " ++ selected_slot ++
                       ": " ++ formatted,
                     doctor_name := some (orDefault doctor_name doctor_id),
                     slot_number := some selected_slot,
                     appointment_datetime := some formatted,
                     timestamp := some selected_timestamp,
                     unique_id := some unique_id,
                     email_sent := some email_sent }, db1)

/-! ### The removal primitive as two storage operations

`remove_timeslot_by_timestamp` talks to the store twice: the scan that
reads the schedule (lines 240-243, together with the purely local key
search of lines 256-275) and the `update_item` that writes it (lines
278-283).  The write carries no `ConditionExpression`, and a DynamoDB
`REMOVE` of a document path whose final element is absent is a silent
no-op that still succeeds.  Splitting the function at that boundary makes
the interleaving of two concurrent booking attempts expressible. -/

/-- The progress of one in-flight removal attempt. -/
inductive AttemptPhase where
  | toRead (target : String)
  | toWrite (schedule_id slotKey : String)
  | done (result : Option String)
deriving DecidableEq, Repr

/-- One storage round-trip of an attempt: the read phase performs the
scan and the key search against the store as it is *now*; the write phase
performs the unconditional `update_item`, which succeeds whether or not
the located key is still present. -/
def stepAttempt (db : DB) (doctor_id : String) :
    AttemptPhase → AttemptPhase × DB
  | .toRead target =>
      match scheduleFor db doctor_id with
      | none => (.done none, db)
      | some sched =>
        match sched.timeslots with
        | .dict entries =>
            match locateSlotKey entries target with
            | none => (.done none, db)
            | some k =>
                if k = "" then (.done none, db)
                else (.toWrite sched.schedule_id k, db)
        | _ => (.done none, db)
  | .toWrite sid k => (.done (some k), applyRemove db sid k)
  | .done r => (.done r, db)

/-- Two concurrent booking attempts (their removal halves) racing on one
store. -/
structure RaceState where
  db : DB
  a : AttemptPhase
  b : AttemptPhase
deriving DecidableEq, Repr

/-- Advance attempt `a` (move `true`) or attempt `b` (move `false`) by one
storage operation. -/
def raceStep (doctor_id : String) (s : RaceState) (moveA : Bool) : RaceState :=
  if moveA then
    let (a1, db1) := stepAttempt s.db doctor_id s.a
    { s with a := a1, db := db1 }
  else
    let (b1, db1) := stepAttempt s.db doctor_id s.b
    { s with b := b1, db := db1 }

/-- Run a race under a given interleaving of storage operations. -/
def runRace (doctor_id : String) (moves : List Bool) (s : RaceState) : RaceState :=
  moves.foldl (raceStep doctor_id) s



/-- One named parameter of the action-group event: a dict that may lack
the `name` or `value` key. -/
structure Param where
  name : Option String
  value : Option String
deriving DecidableEq, Repr

/-- `get_param_value` (lines 30-44): the value of the first parameter
whose name equals the key; `None` when no parameter matches or the
matching parameter has no value. -/
def get_param_value (params : List Param) (key : String) : Option String :=
  (params.find? (fun p => p.name = some key)).bind (fun p => p.value)

/-- The session-attributes bag: a Python dict of strings, modelled as its
insertion-ordered key/value pairs. -/
abbrev SessionMap := List (String × String)

/-- `m.get(k)`. -/
def dictGet (m : SessionMap) (k : String) : Option String :=
  (m.find? (fun p => p.1 = k)).map (fun p => p.2)

/-- `m[k] = v` on a Python dict: replace in place when the key exists
(keys of a dict are unique, so replacing the first occurrence is the
replacement), append at the end otherwise. -/
def dictSet : SessionMap → String → String → SessionMap
  | [], k, v => [(k, v)]
  | p :: rest, k, v =>
      if p.1 = k then (k, v) :: rest else p :: dictSet rest k v

/-- The specialty/default-complaint table of lines 449-476. -/
def specialty_symptoms_full : List (String × String) :=
  [("Pulmonology", "Respiratory concerns (e.g., shortness of breath, cough, wheezing)"),
   ("Cardiology", "Heart-related symptoms (e.g., chest pain, palpitations, fatigue)"),
   ("Dermatology", "Skin condition (e.g., rashes, acne, infections, pigmentation)"),
   ("Neurology", "Neurological symptoms (e.g., headaches, seizures, dizziness, memory issues)"),
   ("Orthopedics", "Musculoskeletal issues (e.g., joint pain, fractures, back pain)"),
   ("Gastroenterology", "Digestive system concerns (e.g., abdominal pain, bloating, acid reflux)"),
   ("ENT", "Ear, nose, or throat issues (e.g., sinus problems, hearing loss, sore throat)"),
   ("Ophthalmology", "Eye-related concerns (e.g., blurred vision, redness, eye pain)"),
   ("Psychiatry", "Mental health consultation (e.g., anxiety, depression, sleep issues)"),
   ("Gynecology", "Women\x27s health consultation (e.g., menstrual problems, PCOS, fertility)"),
   ("Urology", "Urinary or kidney concerns (e.g., frequent urination, UTI, kidney stones)"),
   ("Endocrinology", "Hormonal or metabolic issues (e.g., thyroid disorders, diabetes)"),
   ("Rheumatology", "Autoimmune and inflammatory conditions (e.g., arthritis, lupus)"),
   ("Pediatrics", "Child health issues (e.g., fever, infections, development concerns)"),
   ("Oncology", "Cancer-related concerns (e.g., abnormal growths, diagnosis follow-up)"),
   ("Hematology", "Blood-related issues (e.g., anemia, clotting disorders)"),
   ("Nephrology", "Kidney-related concerns (e.g., chronic kidney disease, proteinuria)"),
   ("Hepatology", "Liver-related conditions (e.g., hepatitis, liver function issues)"),
   ("Infectious Disease", "Infection-related concerns (e.g., fever, viral illness, long COVID)"),
   ("General Medicine", "General consultation or non-specific symptoms (e.g., fatigue, weakness)"),
   ("Allergy and Immunology", "Allergic reactions and immune system concerns (e.g., hay fever, hives)"),
   ("Pain Management", "Chronic or acute pain (e.g., migraines, neuropathy)"),
   ("Plastic Surgery", "Cosmetic or reconstructive surgery consultation"),
   ("Dentistry", "Tooth or oral health issues (e.g., pain, decay, gum issues)"),
   ("Sexology", "Sexual health concerns (e.g., performance issues, STIs)"),
   ("Nutrition & Dietetics", "Dietary guidance and nutritional issues (e.g., weight management, deficiency)")]

/-- The smaller specialty/default-complaint table inside the booking
branch (lines 585-596). -/
def specialty_symptoms_short : List (String × String) :=
  [("Pulmonology", "Respiratory concerns"),
   ("Cardiology", "Heart-related symptoms"),
   ("Dermatology", "Skin condition"),
   ("Neurology", "Neurological symptoms"),
   ("Orthopedics", "Musculoskeletal issues"),
   ("Gastroenterology", "Digestive system concerns"),
   ("ENT", "Ear, nose, or throat issues"),
   ("Ophthalmology", "Eye-related concerns"),
   ("Psychiatry", "Mental health consultation"),
   ("Gynecology", "Women\x27s health consultation")]

/-- `table.get(key, default)` for the two tables above. -/
def tableGetD (t : List (String × String)) (k d : String) : String :=
  match t.find? (fun p => p.1 = k) with
  | some p => p.2
  | none => d

/-- The symptom keyword set of lines 484-491. -/
def symptom_keywords : List String :=
  ["breathing", "cough", "chest", "pain", "headache", "fever",
   "dizzy", "nausea", "stomach", "back", "joint", "fatigue",
   "shortness of breath", "difficulty breathing", "wheezing",
   "heart", "palpitations", "anxiety", "depression", "skin",
   "rash", "allergy", "sore throat", "congestion", "ache",
   "hurt", "discomfort", "problem", "issue", "trouble"]

/-- `any(keyword in input_lower for keyword in symptom_keywords)`
(lines 493-494). -/
def keywordHit (input_text : String) : Bool :=
  symptom_keywords.any (fun kw => strContains (pyLower input_text) kw)

/-- The Lambda event, restricted to the fields the handler reads.  An
absent `actionGroup`/`function` key is `none` and raises `KeyError` into
the catch-all; the remaining fields are read with `.get` defaults. -/
structure Event where
  actionGroup : Option String
  function : Option String
  messageVersion : Option String
  parameters : List Param
  sessionAttributes : SessionMap
  sessionId : Option String
  inputText : Option String
deriving DecidableEq, Repr

/-- The session-attribute updates of the turn (lines 438, 445, 448-496):
only the `get_doctors_by_specialty` branch ever writes to the copied
session bag, touching exactly `current_specialty` and
`symptoms_summary`. -/
def updatedAttrsFor (e : Event) : SessionMap :=
  let attrs := e.sessionAttributes
  let specialty? := get_param_value e.parameters "specialty"
  let location? := get_param_value e.parameters "location"
  let symptoms := (dictGet attrs "symptoms_summary").getD ""
  let input_text := (e.inputText).getD ""
  if e.function = some "get_doctors_by_specialty" ∧ truthy specialty? = true ∧
      truthy location? = true then
    match specialty? with
    | some specialty =>
        let a1 := dictSet attrs "current_specialty" specialty
        let a2 := if symptoms = "" then
            dictSet a1 "symptoms_summary"
              (tableGetD specialty_symptoms_full specialty (specialty ++ " consultation"))
          else a1
        if input_text ≠ "" ∧ (pyStrip input_text).length > 5 ∧
            keywordHit input_text = true then
          dictSet a2 "symptoms_summary" ("Patient reported: " ++ input_text)
        else a2
    | none => attrs
  else attrs

/-- One doctor of the `ListDoctors` reply (lines 507-516). -/
structure DoctorView where
  doctor_id : String
  name : String
  specialty : String
  location : String
  next_available_timeslots : List String
deriving DecidableEq, Repr

/-- The `responseBody` payload.  Plain messages are carried verbatim; the
two `json.dumps` payloads are carried structurally (the JSON serialization
is external formatting with no bearing on the claims). -/
inductive RespBody where
  | text (body : String)
  | doctorsListing (doctors : List DoctorView)
  | timeslotsListing (doctor_id : String) (doctor_name : Option String)
      (slots : List String)
deriving DecidableEq, Repr

/-- The returned envelope.  The catch-all error path (lines 668-683) omits
the `sessionAttributes` key entirely, hence the `Option`. -/
structure Response where
  actionGroup : String
  function : String
  responseBody : RespBody
  messageVersion : String
  sessionAttributes : Option SessionMap
deriving DecidableEq, Repr

/-- Modelled interface of the external report-insight collaborator
(`fetch_medical_summary_by_session_id`, lines 94-122): given the optional
session id it yields a cleaned summary string or the sentinel; its result
flows only into the email payload.  `insight` is the collaborator. -/
def fetchMedicalSummary (sid : Option String) (insight : String → String) : String :=
  match sid with
  | some s => insight s
  | none => "NA"

/-- Lines 525-549: the `get_doctor_timeslots` branch. -/
def timeslotsBranch (db : DB) (doctor_id? doctor_name? : Option String)
    (now : PyDateTime) : RespBody :=
  let did := if truthy doctor_id? = false ∧ truthy doctor_name? = true then
      (match doctor_name? with
       | some n => get_doctor_id_by_name db n
       | none => none)
    else doctor_id?
  if truthy did = false then .text "Doctor not found. Please try again."
  else
    match did with
    | some d =>
        .timeslotsListing d doctor_name? (get_next_timeslots_for_doctor db d now)
    | none => .text "Doctor not found. Please try again."

/-- Lines 552-641: the `book_appointment_slot` branch of the router. -/
def bookBranch (db : DB) (e : Event) (attrs : SessionMap) (now : PyDateTime)
    (emailOk : Bool) (uuidToken : String) (insight : String → String) :
    RespBody × DB :=
  let doctor_id? := get_param_value e.parameters "doctor_id"
  let doctor_name? := get_param_value e.parameters "doctor_name"
  let selected_slot := (get_param_value e.parameters "selected_slot").getD ""
  let session_id := match dictGet e.sessionAttributes "session_id" with
    | some v => some v
    | none => e.sessionId
  let did := if truthy doctor_id? = false ∧ truthy doctor_name? = true then
      (match doctor_name? with
       | some n => get_doctor_id_by_name db n
       | none => none)
    else doctor_id?
  if truthy did = false then
    (.text "Doctor not found. Unable to book appointment.", db)
  else
    match did with
    | some d =>
        let specialist_type :=
          match dictGet attrs "current_specialty" with
          | some s =>
              if s = "" then
                (match db.doctors.find? (fun r => r.doctor_id = d) with
                 | some rec => rec.specialty
                 | none => "General")
              else s
          | none =>
              match db.doctors.find? (fun r => r.doctor_id = d) with
              | some rec => rec.specialty
              | none => "General"
        let _symptoms :=
          match dictGet attrs "symptoms_summary" with
          | some s =>
              if s = "" then
                tableGetD specialty_symptoms_short specialist_type
                  (specialist_type ++ " consultation")
              else s
          | none =>
              tableGetD specialty_symptoms_short specialist_type
                (specialist_type ++ " consultation")
        let _extraction := fetchMedicalSummary session_id insight
        let br := book_appointment_slot db d selected_slot doctor_name?
          session_id now emailOk uuidToken
        let result := br.1
        let db1 := br.2
        if result.success then
          let email_status := if result.email_sent = some true then
              " A confirmation email has been sent to your email address."
            else ""
          (.text ("You have successfully scheduled Slot " ++
              (result.slot_number.getD "") ++ ": " ++
              (result.appointment_datetime.getD "") ++ " with " ++
              (result.doctor_name.getD "") ++ " (" ++ specialist_type ++
              ").\n" ++ "Your appointment confirmation ID is: " ++
              (result.unique_id.getD "") ++ "\n" ++
              "Your appointment has been confirmed and the slot has been reserved for you." ++
              email_status ++ "\n" ++
              "If you need further assistance, please let me know."), db1)
        else (.text result.message, db1)
    | none => (.text "Doctor not found. Unable to book appointment.", db)

/-- `lambda_handler` (lines 389-683).  The normal path dispatches the
three actions and returns the envelope with the updated session bag; a
missing `actionGroup` or `function` key raises into the catch-all of
lines 668-683, which answers with the generic error body, echoes
`actionGroup`/`function`/`messageVersion` with empty-string defaults and
returns no session attributes at all. -/
def lambda_handler (db : DB) (e : Event) (now : PyDateTime) (emailOk : Bool)
    (uuidToken : String) (insight : String → String) : Response × DB :=
  match e.actionGroup, e.function with
  | some ag, some fn =>
      let specialty? := get_param_value e.parameters "specialty"
      let location? := get_param_value e.parameters "location"
      let doctor_id? := get_param_value e.parameters "doctor_id"
      let doctor_name? := get_param_value e.parameters "doctor_name"
      let selected_slot? := get_param_value e.parameters "selected_slot"
      let attrs1 := updatedAttrsFor e
      let bodyDb :=
        if fn = "get_doctors_by_specialty" ∧ truthy specialty? = true ∧
            truthy location? = true then
          let items := db.doctors.filter (fun r =>
            r.specialty = specialty?.getD "" ∧ r.location = location?.getD "")
          ((.doctorsListing (items.map (fun r =>
            { doctor_id := r.doctor_id, name := r.name,
              specialty := r.specialty, location := r.location,
              next_available_timeslots :=
                get_next_timeslots_for_doctor db r.doctor_id now })) : RespBody), db)
        else if fn = "get_doctor_timeslots" ∧
            (truthy doctor_id? = true ∨ truthy doctor_name? = true) then
          (timeslotsBranch db doctor_id? doctor_name? now, db)
        else if fn = "book_appointment_slot" ∧ truthy selected_slot? = true ∧
            (truthy doctor_id? = true ∨ truthy doctor_name? = true) then
          bookBranch db e attrs1 now emailOk uuidToken insight
        else
          (.text ("Missing or invalid parameters for function \x27" ++ fn ++
            "\x27. Please provide the required parameters."), db)
      ({ actionGroup := ag, function := fn, responseBody := bodyDb.1,
         messageVersion := (e.messageVersion).getD "1",
         sessionAttributes := some attrs1 }, bodyDb.2)
  | _, _ =>
      ({ actionGroup := (e.actionGroup).getD "",
         function := (e.function).getD "",
         responseBody := .text "Internal server error occurred. Please try again later.",
         messageVersion := (e.messageVersion).getD "1",
         sessionAttributes := none }, db)

/-- The entries of the timeslots mapping of the schedule record the
repository locates for a doctor (empty when there is no schedule or the
attribute is not mapping-shaped). -/
def entriesOfDoctor (db : DB) (d : String) : List (String × SlotVal) :=
  match scheduleFor db d with
  | some sched =>
      match sched.timeslots with
      | .dict entries => entries
      | _ => []
  | none => []

/-- `s` is the decoded value of some raw stored slot entry. -/
def storedRaw : Timeslots → String → Prop
  | .dict entries, s => ∃ k, (k, SlotVal.str s) ∈ entries
  | .list elems, s => ∃ v ∈ elems, decodeSlot v = some s
  | .other, _ => False


/-! ### Concrete stores and events for witnesses and counterexamples -/

/-- Future timestamps of the worked example, T1 < T2 < T3. -/
def exT1 : String := "2099-01-01T09:00:00Z"

/-- Second future slot of the worked example. -/
def exT2 : String := "2099-01-02T10:30:00Z"

/-- Third future slot of the worked example. -/
def exT3 : String := "2099-02-01T08:00:00Z"

/-- Call time of the examples. -/
def exNow : PyDateTime := ⟨2026, 10, 12, 0, 0, 0⟩

/-- Doctor `D1` with five stored slots, two already past and three future
(the worked example of the spec). -/
def exDb : DB :=
  { doctors := [⟨"D1", "Dr Rao", "Cardiology", "Pune"⟩],
    schedules := [⟨"SCH1", "D1", .dict
      [("k1", .str "2001-01-01T09:00:00Z"), ("k2", .str exT2),
       ("k3", .str "2002-05-05T09:00:00Z"), ("k4", .str exT1),
       ("k5", .str exT3)]⟩] }

/-- The same future timestamp stored under two distinct slot keys. -/
def exDbDup : DB :=
  { doctors := [],
    schedules := [⟨"SCH1", "D1", .dict
      [("a", .str exT1), ("b", .str exT1)]⟩] }

/-- A mapping-shaped schedule whose only value is an S-wrapped string. -/
def exDbTagged : DB :=
  { doctors := [],
    schedules := [⟨"SCH1", "D1", .dict [("s1", .sTagged exT1)]⟩] }

/-- A schedule whose matching entry sits under the empty-string slot key. -/
def exDbEmptyKey : DB :=
  { doctors := [],
    schedules := [⟨"SCH1", "D1", .dict [("", .str exT1)]⟩] }

/-- A list-shaped schedule: the allocator offers its slots, but the
removal primitive always signals a conflict on it. -/
def exDbList : DB :=
  { doctors := [],
    schedules := [⟨"SCH1", "D1", .list [.str exT1]⟩] }

/-- The single-slot store of the concurrency scenario. -/
def exDbRace : DB :=
  { doctors := [],
    schedules := [⟨"SCH1", "D1", .dict [("slot1", .str exT1)]⟩] }

/-- A `ListDoctors` turn arriving with a rich caller-supplied symptom
summary and a keyword-bearing utterance. -/
def exEvListDoc : Event :=
  { actionGroup := some "ag", function := some "get_doctors_by_specialty",
    messageVersion := some "1",
    parameters := [⟨some "specialty", some "Cardiology"⟩,
                   ⟨some "location", some "Pune"⟩],
    sessionAttributes := [("symptoms_summary", "Rich detailed prior summary"),
                          ("custom_key", "caller value")],
    sessionId := some "S1", inputText := some "I have chest pain daily" }

/-- An event whose `function` key is missing while session state is
present. -/
def exEvNoFn : Event :=
  { actionGroup := some "ag", function := none, messageVersion := none,
    parameters := [], sessionAttributes := [("k", "v")],
    sessionId := none, inputText := none }

/-- A booking turn for doctor `D1`, ordinal 2. -/
def exEvBook : Event :=
  { actionGroup := some "ag", function := some "book_appointment_slot",
    messageVersion := some "1",
    parameters := [⟨some "doctor_id", some "D1"⟩,
                   ⟨some "selected_slot", some "2"⟩],
    sessionAttributes := [("session_id", "S1"), ("custom_key", "caller value")],
    sessionId := some "S1", inputText := none }

/-! ### Helper lemmas about the slot allocator and the removal locate -/

theorem get_next_length_le (db : DB) (d : String) (now : PyDateTime) :
    (get_next_timeslots_for_doctor db d now).length ≤ 3 := by
  unfold get_next_timeslots_for_doctor
  rcases scheduleFor db d with _ | rec
  · simp
  · rw [List.length_take]
    exact min_le_left _ _

theorem get_next_mem_future (db : DB) (d : String) (now : PyDateTime)
    {s : String} (hs : s ∈ get_next_timeslots_for_doctor db d now) :
    isFutureSlot now s = true := by
  rcases h : scheduleFor db d with _ | rec
  · simp [get_next_timeslots_for_doctor, h] at hs
  · simp only [get_next_timeslots_for_doctor, h] at hs
    have h1 := List.take_subset 3 _ hs
    rw [List.mem_insertionSort] at h1
    exact (List.mem_filter.mp h1).2

theorem get_next_sorted (db : DB) (d : String) (now : PyDateTime) :
    List.Sorted strLe (get_next_timeslots_for_doctor db d now) := by
  unfold get_next_timeslots_for_doctor
  rcases scheduleFor db d with _ | rec
  · simp
  · exact List.Pairwise.sublist (List.take_sublist _ _)
      (List.sorted_insertionSort strLe _)

theorem isFutureSlot_parse {now : PyDateTime} {s : String}
    (h : isFutureSlot now s = true) :
    ∃ t, parseTimestamp s = some t ∧ PyDateTime.ltb now t = true := by
  unfold isFutureSlot at h
  rcases hp : parseTimestamp s with _ | t
  · rw [hp] at h; simp at h
  · rw [hp] at h; exact ⟨t, rfl, h⟩

theorem locateSlotKey_eq_none {entries : List (String × SlotVal)}
    {target : String} :
    locateSlotKey entries target = none ↔
      ∀ e ∈ entries, ¬ decodeSlot e.2 = some target := by
  simp [locateSlotKey, List.find?_eq_none]

theorem locateSlotKey_eq_some {entries : List (String × SlotVal)}
    {target k : String} (h : locateSlotKey entries target = some k) :
    ∃ v, (k, v) ∈ entries ∧ decodeSlot v = some target := by
  unfold locateSlotKey at h
  rcases hf : entries.find? (fun e => decodeSlot e.2 = some target) with _ | e
  · rw [hf] at h; simp at h
  · rw [hf] at h
    simp only [Option.map_some'] at h
    rw [Option.some_inj] at h
    have hm := List.mem_of_find?_eq_some hf
    have hp := List.find?_some hf
    simp only [decide_eq_true_eq] at hp
    refine ⟨e.2, ?_, hp⟩
    rw [← h]
    simpa using hm

/-- Sanity of the split: one attempt run to completion with no
interference is exactly `remove_timeslot_by_timestamp`. -/
theorem stepAttempt_seq_eq_remove (db : DB) (d t : String) :
    (let s1 := stepAttempt db d (.toRead t)
     (stepAttempt s1.2 d s1.1)) =
      (.done (remove_timeslot_by_timestamp db d t).1,
       (remove_timeslot_by_timestamp db d t).2) := by
  rcases h : scheduleFor db d with _ | sched
  · simp [stepAttempt, remove_timeslot_by_timestamp, h]
  · rcases ht : sched.timeslots with entries | elems | _
    · rcases hl : locateSlotKey entries t with _ | k
      · simp [stepAttempt, remove_timeslot_by_timestamp, h, ht, hl]
      · by_cases hk : k = "" <;>
          simp [stepAttempt, remove_timeslot_by_timestamp, h, ht, hl, hk]
    · simp [stepAttempt, remove_timeslot_by_timestamp, h, ht]
    · simp [stepAttempt, remove_timeslot_by_timestamp, h, ht]

theorem dictGet_dictSet_self (m : SessionMap) (k v : String) :
    dictGet (dictSet m k v) k = some v := by
  induction m with
  | nil => simp [dictSet, dictGet, List.find?]
  | cons p rest ih =>
    by_cases h : p.1 = k
    · simp [dictSet, dictGet, List.find?, h]
    · simpa [dictSet, dictGet, List.find?, h] using ih

theorem dictGet_dictSet_ne (m : SessionMap) (k v k' : String) (h : k' ≠ k) :
    dictGet (dictSet m k v) k' = dictGet m k' := by
  have h2 : ¬ (k = k') := Ne.symm h
  induction m with
  | nil => simp [dictSet, dictGet, List.find?, h2]
  | cons p rest ih =>
    by_cases hp : p.1 = k
    · by_cases hq : p.1 = k'
      · exact absurd (hp.symm.trans hq) h2
      · simp [dictSet, dictGet, List.find?, hp, hq, h2]
    · by_cases hq : p.1 = k'
      · simp only [dictSet, if_neg hp]
        simp [dictGet, List.find?, hq]
      · simpa [dictSet, dictGet, List.find?, hp, hq] using ih

theorem dictGet_isSome_dictSet (m : SessionMap) (k v k' : String)
    (h : (dictGet m k').isSome = true) :
    (dictGet (dictSet m k v) k').isSome = true := by
  by_cases hk : k' = k
  · subst hk; simp [dictGet_dictSet_self]
  · rwa [dictGet_dictSet_ne m k v k' hk]

/-! ### Helper lemmas about the session-bag updates -/

theorem updatedAttrsFor_get_ne (e : Event) (k : String)
    (h1 : k ≠ "current_specialty") (h2 : k ≠ "symptoms_summary") :
    dictGet (updatedAttrsFor e) k = dictGet e.sessionAttributes k := by
  have r1 : ∀ m v, dictGet (dictSet m "current_specialty" v) k = dictGet m k :=
    fun m v => dictGet_dictSet_ne m _ v k h1
  have r2 : ∀ m v, dictGet (dictSet m "symptoms_summary" v) k = dictGet m k :=
    fun m v => dictGet_dictSet_ne m _ v k h2
  simp only [updatedAttrsFor]
  split
  · split
    · split
      · rw [r2]
        split <;> simp only [r1, r2]
      · split <;> simp only [r1, r2]
    · rfl
  · rfl

theorem updatedAttrsFor_isSome (e : Event) (k : String)
    (h : (dictGet e.sessionAttributes k).isSome = true) :
    (dictGet (updatedAttrsFor e) k).isSome = true := by
  simp only [updatedAttrsFor]
  split
  · split
    · split
      · apply dictGet_isSome_dictSet
        split
        · exact dictGet_isSome_dictSet _ _ _ _ (dictGet_isSome_dictSet _ _ _ _ h)
        · exact dictGet_isSome_dictSet _ _ _ _ h
      · split
        · exact dictGet_isSome_dictSet _ _ _ _ (dictGet_isSome_dictSet _ _ _ _ h)
        · exact dictGet_isSome_dictSet _ _ _ _ h
    · exact h
  · exact h

/-! ### Claims -/

/-- C1 (code-bug evidence): two concurrent booking attempts resolving to
the same timestamp can BOTH succeed.  `remove_timeslot_by_timestamp` is a
scan (read) followed by an `update_item` (write) with no
`ConditionExpression`; under the interleaving read-A, read-B, write-A,
write-B both writes succeed — a DynamoDB `REMOVE` of an already-absent
map key is a silent no-op — so both callers are told their booking
committed although only one slot existed.  For contrast, the second
conjunct runs the same two attempts without interleaving (A completes,
then B): only then does the loser receive the conflict the claim
promises. -/
theorem C1_race_both_attempts_succeed :
    ((runRace "D1" [true, false, true, false]
        { db := exDbRace, a := .toRead exT1, b := .toRead exT1 }).a =
        .done (some "slot1") ∧
     (runRace "D1" [true, false, true, false]
        { db := exDbRace, a := .toRead exT1, b := .toRead exT1 }).b =
        .done (some "slot1") ∧
     (runRace "D1" [true, false, true, false]
        { db := exDbRace, a := .toRead exT1, b := .toRead exT1 }).db.schedules =
        [⟨"SCH1", "D1", .dict []⟩]) ∧
    ((runRace "D1" [true, true, false, false]
        { db := exDbRace, a := .toRead exT1, b := .toRead exT1 }).a =
        .done (some "slot1") ∧
     (runRace "D1" [true, true, false, false]
        { db := exDbRace, a := .toRead exT1, b := .toRead exT1 }).b =
        .done none) := by decide

/-- C2 (counterexample): with the same future timestamp stored under two
distinct slot keys, `get_next_timeslots_for_doctor` returns the timestamp
twice — duplicate raw entries are not excluded and the returned sequence
is not strictly ascending, refuting the claim as stated. -/
theorem C2_counterexample :
    get_next_timeslots_for_doctor exDbDup "D1" exNow = [exT1, exT1] := by
  decide

/-- C2 (amended): `get_next_timeslots_for_doctor` returns at most 3
entries; every returned entry parses under the fixed UTC format to a time
strictly later than `now` (so unparsable entries are excluded); and the
result is sorted non-decreasingly in Python string order — duplicates are
retained, so the order is non-strict rather than strictly ascending. -/
theorem C2_next_slots_bounded_future_sorted (db : DB) (d : String)
    (now : PyDateTime) :
    (get_next_timeslots_for_doctor db d now).length ≤ 3 ∧
    (∀ s ∈ get_next_timeslots_for_doctor db d now,
       ∃ t, parseTimestamp s = some t ∧ PyDateTime.ltb now t = true) ∧
    List.Sorted strLe (get_next_timeslots_for_doctor db d now) :=
  ⟨get_next_length_le db d now,
   fun _ hs => isFutureSlot_parse (get_next_mem_future db d now hs),
   get_next_sorted db d now⟩

/-- C2 (witness): the amended statement evaluated on the worked example,
discharging the membership hypothesis at the concrete slot `exT1`. -/
theorem C2_witness :
    (get_next_timeslots_for_doctor exDb "D1" exNow).length ≤ 3 ∧
    (∃ t, parseTimestamp exT1 = some t ∧ PyDateTime.ltb exNow t = true) :=
  ⟨(C2_next_slots_bounded_future_sorted exDb "D1" exNow).1,
   (C2_next_slots_bounded_future_sorted exDb "D1" exNow).2.1 exT1 (by decide)⟩

/-- C7 (counterexample): in the mapping-shaped encoding an S-wrapped
value is NOT normalized: the only entry of this schedule wraps a
decodable future timestamp, yet the allocator returns nothing — the
wrapped value is skipped, not normalized before filtering. -/
theorem C7_counterexample :
    entriesOfDoctor exDbTagged "D1" = [("s1", SlotVal.sTagged exT1)] ∧
    decodeSlot (SlotVal.sTagged exT1) = some exT1 ∧
    isFutureSlot exNow exT1 = true ∧
    get_next_timeslots_for_doctor exDbTagged "D1" exNow = [] := by decide

/-- C7 (amended): an absent schedule yields the empty sequence rather
than an error, and every slot the allocator returns traces back to a raw
stored entry through the normalization — which accepts plain strings in
the mapping-shaped encoding (S-wrapped values are skipped there with a
warning) and both plain and S-wrapped values in the list-shaped encoding;
entries that fail to decode are skipped without failing the call. -/
theorem C7_normalization_traceable (db : DB) (d : String) (now : PyDateTime) :
    (scheduleFor db d = none → get_next_timeslots_for_doctor db d now = []) ∧
    (∀ s ∈ get_next_timeslots_for_doctor db d now,
       ∃ sched, scheduleFor db d = some sched ∧ storedRaw sched.timeslots s) := by
  constructor
  · intro h
    simp [get_next_timeslots_for_doctor, h]
  · intro s hs
    rcases h : scheduleFor db d with _ | sched
    · simp [get_next_timeslots_for_doctor, h] at hs
    · refine ⟨sched, rfl, ?_⟩
      simp only [get_next_timeslots_for_doctor, h] at hs
      have h1 := List.take_subset 3 _ hs
      rw [List.mem_insertionSort] at h1
      have h2 := (List.mem_filter.mp h1).1
      rcases ht : sched.timeslots with entries | elems | _
      · rw [ht] at h2
        simp only [extractTimeslotStrs] at h2
        rw [List.mem_filterMap] at h2
        rcases h2 with ⟨e, he, hee⟩
        rw [List.mem_insertionSort] at he
        rcases hv : e.2 with v | v | _
        · rw [hv] at hee
          simp only [Option.some_inj] at hee
          subst hee
          exact ⟨e.1, by rw [← hv]; simpa using he⟩
        · rw [hv] at hee; simp at hee
        · rw [hv] at hee; simp at hee
      · rw [ht] at h2
        simp only [extractTimeslotStrs] at h2
        rw [List.mem_filterMap] at h2
        exact h2
      · rw [ht] at h2
        simp [extractTimeslotStrs] at h2

/-- C7 (witness): the amended statement applied to a doctor without a
schedule and, for traceability, to the first offered slot of the worked
example. -/
theorem C7_witness :
    get_next_timeslots_for_doctor exDb "NoDoc" exNow = [] ∧
    (∃ sched, scheduleFor exDb "D1" = some sched ∧
       storedRaw sched.timeslots exT1) :=
  ⟨(C7_normalization_traceable exDb "NoDoc" exNow).1 (by decide),
   (C7_normalization_traceable exDb "D1" exNow).2 exT1 (by decide)⟩

/-- C3: on every successful call, `book_appointment_slot` resolved the
ordinal against the availability view recomputed from the store at
booking time: the selection parses to an ordinal `n` within 1..len of
that fresh view, and the returned `timestamp` field is exactly its
`n`-th element (1-based). -/
theorem C3_booking_resolves_fresh_view (db : DB) (d sel : String)
    (dn sid : Option String) (now : PyDateTime) (eok : Bool) (utok : String)
    (h : (book_appointment_slot db d sel dn sid now eok utok).1.success = true) :
    ∃ n : Int, pyInt sel = some n ∧ 1 ≤ n ∧
      n ≤ ((get_next_timeslots_for_doctor db d now).length : Int) ∧
      (book_appointment_slot db d sel dn sid now eok utok).1.timestamp =
        some ((get_next_timeslots_for_doctor db d now).getD (n - 1).toNat "") := by
  by_cases hne : (get_next_timeslots_for_doctor db d now).isEmpty
  · exfalso
    simp only [book_appointment_slot, hne, if_true] at h
    simp at h
  · rw [Bool.not_eq_true] at hne
    rcases hpi : pyInt sel with _ | n
    · exfalso
      simp only [book_appointment_slot, hne, Bool.false_eq_true, if_false, hpi] at h
    · by_cases hrange : ((n : Int) - 1 < 0 ∨
          ((get_next_timeslots_for_doctor db d now).length : Int) ≤ n - 1)
      · exfalso
        simp only [book_appointment_slot, hne, Bool.false_eq_true, if_false, hpi] at h
        rw [if_pos hrange] at h
        simp at h
      · rcases hrm : remove_timeslot_by_timestamp db d
            ((get_next_timeslots_for_doctor db d now).getD (n - 1).toNat "") with ⟨r, db1⟩
        rcases r with _ | k
        · exfalso
          simp only [book_appointment_slot, hne, Bool.false_eq_true, if_false, hpi] at h
          rw [if_neg hrange, hrm] at h
          simp at h
        · rcases hpt : parseTimestamp
              ((get_next_timeslots_for_doctor db d now).getD (n - 1).toNat "") with _ | dt
          · exfalso
            simp only [book_appointment_slot, hne, Bool.false_eq_true, if_false, hpi] at h
            rw [if_neg hrange, hrm, hpt] at h
            simp at h
          · refine ⟨n, rfl, ?_, ?_, ?_⟩
            · omega
            · rw [not_or] at hrange
              omega
            · simp only [book_appointment_slot, hne, Bool.false_eq_true, if_false, hpi]
              rw [if_neg hrange, hrm, hpt]

/-- C3 (witness): the worked example — doctor `D1` with three future
slots T1 < T2 < T3; booking ordinal 2 succeeds, references T2, and a
subsequent listing yields T1 and T3 only. -/
theorem C3_witness :
    (∃ n : Int, pyInt "2" = some n ∧ 1 ≤ n ∧
      n ≤ ((get_next_timeslots_for_doctor exDb "D1" exNow).length : Int) ∧
      (book_appointment_slot exDb "D1" "2" (some "Dr Rao") (some "S1")
        exNow true "U").1.timestamp =
        some ((get_next_timeslots_for_doctor exDb "D1" exNow).getD
          (n - 1).toNat "")) ∧
    get_next_timeslots_for_doctor exDb "D1" exNow = [exT1, exT2, exT3] ∧
    (book_appointment_slot exDb "D1" "2" (some "Dr Rao") (some "S1")
      exNow true "U").1.timestamp = some exT2 ∧
    get_next_timeslots_for_doctor
      (book_appointment_slot exDb "D1" "2" (some "Dr Rao") (some "S1")
        exNow true "U").2 "D1" exNow = [exT1, exT3] :=
  ⟨C3_booking_resolves_fresh_view exDb "D1" "2" (some "Dr Rao") (some "S1")
      exNow true "U" (by decide),
   by decide, by decide, by decide⟩

/-- C4 (counterexample): when the matching entry sits under the
empty-string slot key, the removal reports a conflict (`None`) although
an entry of the mapping does decode to the requested timestamp — the
code guards with the falsy test `if not slot_key_to_remove`, conflating
the empty-string key with "not found".  The claimed "Conflict iff no
matching entry" equivalence therefore fails as stated. -/
theorem C4_counterexample :
    (remove_timeslot_by_timestamp exDbEmptyKey "D1" exT1).1 = none ∧
    (∃ e ∈ entriesOfDoctor exDbEmptyKey "D1",
      decodeSlot e.2 = some exT1) := by decide

/-- C4 (amended): provided every slot key of the located mapping is a
non-empty string, the removal returns `None` (a conflict) if and only if
no entry of the doctor's timeslots mapping decodes to the requested
timestamp; and whenever the booking step receives that conflict outcome
it returns a failure telling the caller to pick a different slot —
never success. -/
theorem C4_conflict_iff_and_reselect_message :
    (∀ (db : DB) (d ts : String),
       (∀ e ∈ entriesOfDoctor db d, e.1 ≠ "") →
       ((remove_timeslot_by_timestamp db d ts).1 = none ↔
         ∀ e ∈ entriesOfDoctor db d, ¬ decodeSlot e.2 = some ts)) ∧
    (∀ (db : DB) (d sel : String) (dn sid : Option String) (now : PyDateTime)
       (eok : Bool) (utok : String) (n : Int) (db1 : DB),
       (get_next_timeslots_for_doctor db d now).isEmpty = false →
       pyInt sel = some n →
       ¬ (n - 1 < 0 ∨
         ((get_next_timeslots_for_doctor db d now).length : Int) ≤ n - 1) →
       remove_timeslot_by_timestamp db d
         ((get_next_timeslots_for_doctor db d now).getD (n - 1).toNat "") =
         (none, db1) →
       book_appointment_slot db d sel dn sid now eok utok =
         ({ success := false,
            message := "Unable to book this slot. It may have been taken by another patient. Please select a different slot." }, db1)) := by
  constructor
  · intro db d ts hkeys
    rcases h : scheduleFor db d with _ | sched
    · have he : entriesOfDoctor db d = [] := by simp [entriesOfDoctor, h]
      have hr : (remove_timeslot_by_timestamp db d ts).1 = none := by
        simp [remove_timeslot_by_timestamp, h]
      rw [hr, he]
      simp
    · rcases ht : sched.timeslots with entries | elems | _
      · have he : entriesOfDoctor db d = entries := by
          simp [entriesOfDoctor, h, ht]
        rcases hl : locateSlotKey entries ts with _ | k
        · have hr : (remove_timeslot_by_timestamp db d ts).1 = none := by
            simp [remove_timeslot_by_timestamp, h, ht, hl]
          rw [hr, he]
          exact iff_of_true rfl (locateSlotKey_eq_none.mp hl)
        · have hk : k ≠ "" := by
            rcases locateSlotKey_eq_some hl with ⟨v, hv, _⟩
            exact hkeys (k, v) (by rw [he]; exact hv)
          have hr : (remove_timeslot_by_timestamp db d ts).1 = some k := by
            simp [remove_timeslot_by_timestamp, h, ht, hl, hk]
          rw [hr, he]
          apply iff_of_false (by simp)
          intro hall
          rcases locateSlotKey_eq_some hl with ⟨v, hv, hdec⟩
          exact hall (k, v) hv hdec
      · have he : entriesOfDoctor db d = [] := by simp [entriesOfDoctor, h, ht]
        have hr : (remove_timeslot_by_timestamp db d ts).1 = none := by
          simp [remove_timeslot_by_timestamp, h, ht]
        rw [hr, he]
        simp
      · have he : entriesOfDoctor db d = [] := by simp [entriesOfDoctor, h, ht]
        have hr : (remove_timeslot_by_timestamp db d ts).1 = none := by
          simp [remove_timeslot_by_timestamp, h, ht]
        rw [hr, he]
        simp
  · intro db d sel dn sid now eok utok n db1 hne hpi hrange hrm
    simp only [book_appointment_slot, hne, Bool.false_eq_true, if_false, hpi]
    rw [if_neg hrange, hrm]

/-- C4 (witness): the equivalence evaluated on the worked example for a
timestamp no entry decodes to, and the conflict-to-failure path exercised
on a list-shaped schedule, whose removal always reports a conflict. -/
theorem C4_witness :
    ((remove_timeslot_by_timestamp exDb "D1" "1999-01-01T00:00:00Z").1 = none ↔
      ∀ e ∈ entriesOfDoctor exDb "D1",
        ¬ decodeSlot e.2 = some "1999-01-01T00:00:00Z") ∧
    book_appointment_slot exDbList "D1" "1" none none exNow true "U" =
      ({ success := false,
         message := "Unable to book this slot. It may have been taken by another patient. Please select a different slot." }, exDbList) :=
  ⟨C4_conflict_iff_and_reselect_message.1 exDb "D1" "1999-01-01T00:00:00Z"
      (by decide),
   C4_conflict_iff_and_reselect_message.2 exDbList "D1" "1" none none exNow
      true "U" 1 exDbList (by decide) (by decide) (by decide) (by decide)⟩

/-- C5: against a non-empty availability view, a selection that does not
parse as an integer fails with the number-format message, and an integer
selection outside 1..len fails with the range message naming the bounds
1..len; in both cases the call returns the store untouched (the whole
`DB`, hence the schedule's timeslots mapping, is unchanged). -/
theorem C5_invalid_selection_messages (db : DB) (d sel : String)
    (dn sid : Option String) (now : PyDateTime) (eok : Bool) (utok : String)
    (hne : (get_next_timeslots_for_doctor db d now).isEmpty = false) :
    (pyInt sel = none →
      book_appointment_slot db d sel dn sid now eok utok =
        ({ success := false,
           message := "Invalid slot number format. Please provide a number." }, db)) ∧
    (∀ n : Int, pyInt sel = some n →
      (n - 1 < 0 ∨ ((get_next_timeslots_for_doctor db d now).length : Int) ≤ n - 1) →
      book_appointment_slot db d sel dn sid now eok utok =
        ({ success := false,
           message := "Invalid slot number. Please select from 1 to " ++
             toString (get_next_timeslots_for_doctor db d now).length ++ "." }, db)) := by
  constructor
  · intro hpi
    simp only [book_appointment_slot, hne, Bool.false_eq_true, if_false, hpi]
  · intro n hpi hrange
    simp only [book_appointment_slot, hne, Bool.false_eq_true, if_false, hpi]
    rw [if_pos hrange]

/-- C5 (witness): ordinal 5 against the 3-element view of the worked
example fails with the range message naming 1..3, and a non-numeric
ordinal fails with the format message; the store is returned unchanged
in both cases. -/
theorem C5_witness :
    (get_next_timeslots_for_doctor exDb "D1" exNow).length = 3 ∧
    book_appointment_slot exDb "D1" "5" none none exNow true "U" =
      ({ success := false,
         message := "Invalid slot number. Please select from 1 to " ++
           toString (get_next_timeslots_for_doctor exDb "D1" exNow).length ++
           "." }, exDb) ∧
    book_appointment_slot exDb "D1" "abc" none none exNow true "U" =
      ({ success := false,
         message := "Invalid slot number format. Please provide a number." }, exDb) :=
  ⟨by decide,
   (C5_invalid_selection_messages exDb "D1" "5" none none exNow true "U"
      (by decide)).2 5 (by decide) (by decide),
   (C5_invalid_selection_messages exDb "D1" "abc" none none exNow true "U"
      (by decide)).1 (by decide)⟩

/-- C6: once the slot removal has committed, the booking returns
`success = true` whatever the notification outcome is, the result's
`email_sent` flag equals that outcome, and the final store is exactly
the post-removal store — a notification failure never reverts the
removal. -/
theorem C6_success_independent_of_notification (db : DB) (d sel : String)
    (dn sid : Option String) (now : PyDateTime) (utok : String) (n : Int)
    (k : String) (db1 : DB)
    (hne : (get_next_timeslots_for_doctor db d now).isEmpty = false)
    (hpi : pyInt sel = some n)
    (hrange : ¬ (n - 1 < 0 ∨
      ((get_next_timeslots_for_doctor db d now).length : Int) ≤ n - 1))
    (hrm : remove_timeslot_by_timestamp db d
        ((get_next_timeslots_for_doctor db d now).getD (n - 1).toNat "") =
        (some k, db1)) :
    ∀ emailOk : Bool,
      (book_appointment_slot db d sel dn sid now emailOk utok).1.success = true ∧
      (book_appointment_slot db d sel dn sid now emailOk utok).1.email_sent =
        some emailOk ∧
      (book_appointment_slot db d sel dn sid now emailOk utok).2 = db1 := by
  intro emailOk
  have hidx : (n - 1).toNat < (get_next_timeslots_for_doctor db d now).length := by
    rw [not_or] at hrange
    omega
  have hmem : (get_next_timeslots_for_doctor db d now).getD (n - 1).toNat "" ∈
      get_next_timeslots_for_doctor db d now := by
    rw [List.getD_eq_getElem _ _ hidx]
    exact List.getElem_mem _
  rcases isFutureSlot_parse (get_next_mem_future db d now hmem) with ⟨dt, hpt, _⟩
  refine ⟨?_, ?_, ?_⟩ <;>
    · simp only [book_appointment_slot, hne, Bool.false_eq_true, if_false, hpi]
      rw [if_neg hrange, hrm, hpt]

/-- C6 (witness): booking ordinal 2 of the worked example with a FAILED
notification still succeeds, reports `email_sent = false`, and leaves the
store in the post-removal state. -/
theorem C6_witness :
    (book_appointment_slot exDb "D1" "2" none (some "S1") exNow false "U").1.success
      = true ∧
    (book_appointment_slot exDb "D1" "2" none (some "S1") exNow false "U").1.email_sent
      = some false ∧
    (book_appointment_slot exDb "D1" "2" none (some "S1") exNow false "U").2 =
      (remove_timeslot_by_timestamp exDb "D1" exT2).2 :=
  C6_success_independent_of_notification exDb "D1" "2" none (some "S1") exNow
    "U" 2 "k2" (remove_timeslot_by_timestamp exDb "D1" exT2).2
    (by decide) (by decide) (by decide) (by decide) false

/-- C8 (counterexample): a `ListDoctors` turn arriving with a rich
caller-supplied symptom summary AND a keyword-bearing utterance: the
enrichment fires anyway and overwrites the existing summary with the
attributed quote — the claimed only-when-absent guard does not exist on
the keyword step. -/
theorem C8_counterexample :
    dictGet exEvListDoc.sessionAttributes "symptoms_summary" =
      some "Rich detailed prior summary" ∧
    dictGet (((lambda_handler exDb exEvListDoc exNow true "U"
        (fun _ => "NA")).1.sessionAttributes).getD []) "symptoms_summary" =
      some "Patient reported: I have chest pain daily" := by decide

/-- C8 (amended): in the `ListDoctors` action the keyword enrichment
fires whenever the utterance is non-trivial and contains a symptom
keyword, overwriting the working summary EVEN when a caller-supplied
summary is already present (only the specialty-default step is guarded by
absence); when the enrichment does not fire, an already-present non-empty
summary is left as-is. -/
theorem C8_enrichment_overwrites (db : DB) (e : Event) (now : PyDateTime)
    (eok : Bool) (utok : String) (insight : String → String) (ag : String)
    (hag : e.actionGroup = some ag)
    (hfn : e.function = some "get_doctors_by_specialty")
    (hsp : truthy (get_param_value e.parameters "specialty") = true)
    (hloc : truthy (get_param_value e.parameters "location") = true) :
    ∃ m, (lambda_handler db e now eok utok insight).1.sessionAttributes = some m ∧
      ((e.inputText.getD "" ≠ "" ∧ (pyStrip (e.inputText.getD "")).length > 5 ∧
          keywordHit (e.inputText.getD "") = true) →
        dictGet m "symptoms_summary" =
          some ("Patient reported: " ++ e.inputText.getD "")) ∧
      (∀ s, ¬ (e.inputText.getD "" ≠ "" ∧
          (pyStrip (e.inputText.getD "")).length > 5 ∧
          keywordHit (e.inputText.getD "") = true) →
        dictGet e.sessionAttributes "symptoms_summary" = some s → s ≠ "" →
        dictGet m "symptoms_summary" = some s) := by
  have hc : e.function = some "get_doctors_by_specialty" ∧
      truthy (get_param_value e.parameters "specialty") = true ∧
      truthy (get_param_value e.parameters "location") = true := ⟨hfn, hsp, hloc⟩
  rcases hsv : get_param_value e.parameters "specialty" with _ | sp
  · rw [hsv] at hsp
    simp [truthy] at hsp
  · refine ⟨updatedAttrsFor e, by simp [lambda_handler, hag, hfn], ?_, ?_⟩
    · intro hfire
      simp only [updatedAttrsFor]
      rw [if_pos hc]
      simp only [hsv]
      rw [if_pos hfire]
      exact dictGet_dictSet_self _ _ _
    · intro s hnf hpres hs
      simp only [updatedAttrsFor]
      rw [if_pos hc]
      simp only [hsv]
      rw [if_neg hnf]
      simp only [hpres, Option.getD_some]
      rw [if_neg hs]
      rw [dictGet_dictSet_ne _ _ _ _ (by decide)]
      exact hpres

/-- C8 (witness): the amended statement applied to the keyword-bearing
turn: the returned session bag carries the attributed quote. -/
theorem C8_witness :
    ∃ m, (lambda_handler exDb exEvListDoc exNow true "U"
        (fun _ => "NA")).1.sessionAttributes = some m ∧
      dictGet m "symptoms_summary" =
        some ("Patient reported: " ++ exEvListDoc.inputText.getD "") := by
  rcases C8_enrichment_overwrites exDb exEvListDoc exNow true "U"
      (fun _ => "NA") "ag" rfl rfl (by decide) (by decide)
    with ⟨m, hm, hf, _⟩
  exact ⟨m, hm, hf (by decide)⟩

/-- C9 (counterexample): on the catch-all error path the returned
envelope carries NO session-state echo at all, even though session state
was available in the request — the error response omits the
`sessionAttributes` key entirely, refuting the "echo of whatever
action and session state is available" part of the claim. -/
theorem C9_counterexample :
    exEvNoFn.sessionAttributes = [("k", "v")] ∧
    (lambda_handler exDb exEvNoFn exNow true "U"
      (fun _ => "NA")).1.sessionAttributes = none := by decide

/-- C9 (amended): the handler is total — any turn whose `actionGroup` or
`function` key is missing (the `KeyError` source of the body) is caught
and converted into a well-formed envelope carrying the generic internal
error message, echoing the action group, function and message version
with empty-string defaults, leaving the store untouched — but echoing no
session state. -/
theorem C9_catchall_envelope (db : DB) (e : Event) (now : PyDateTime)
    (eok : Bool) (utok : String) (insight : String → String)
    (h : e.actionGroup = none ∨ e.function = none) :
    lambda_handler db e now eok utok insight =
      ({ actionGroup := e.actionGroup.getD "", function := e.function.getD "",
         responseBody := .text "Internal server error occurred. Please try again later.",
         messageVersion := e.messageVersion.getD "1",
         sessionAttributes := none }, db) := by
  rcases hag : e.actionGroup with _ | ag
  · rcases hfn : e.function with _ | fn <;> simp [lambda_handler, hag, hfn]
  · rcases hfn : e.function with _ | fn
    · simp [lambda_handler, hag, hfn]
    · rcases h with h | h
      · rw [hag] at h
        exact absurd h (by simp)
      · rw [hfn] at h
        exact absurd h (by simp)

/-- C9 (witness): the amended statement applied to the event whose
`function` key is missing. -/
theorem C9_witness :
    lambda_handler exDb exEvNoFn exNow true "U" (fun _ => "NA") =
      ({ actionGroup := "ag", function := "",
         responseBody := .text "Internal server error occurred. Please try again later.",
         messageVersion := "1", sessionAttributes := none }, exDb) := by
  rw [C9_catchall_envelope exDb exEvNoFn exNow true "U" (fun _ => "NA")
    (Or.inr rfl)]
  decide

/-- C10: on the normal (non-exception) path the returned session bag is
the caller-supplied bag with possible additions or overwrites confined to
`current_specialty` and `symptoms_summary`: every other key reads exactly
as it did on input, and no caller-supplied key is ever deleted. -/
theorem C10_session_keys_preserved (db : DB) (e : Event) (now : PyDateTime)
    (eok : Bool) (utok : String) (insight : String → String) (ag fn : String)
    (hag : e.actionGroup = some ag) (hfn : e.function = some fn) :
    ∃ m, (lambda_handler db e now eok utok insight).1.sessionAttributes = some m ∧
      (∀ k, k ≠ "current_specialty" → k ≠ "symptoms_summary" →
        dictGet m k = dictGet e.sessionAttributes k) ∧
      (∀ k, (dictGet e.sessionAttributes k).isSome = true →
        (dictGet m k).isSome = true) := by
  refine ⟨updatedAttrsFor e, ?_, ?_, ?_⟩
  · simp [lambda_handler, hag, hfn]
  · intro k h1 h2
    exact updatedAttrsFor_get_ne e k h1 h2
  · intro k h
    exact updatedAttrsFor_isSome e k h

/-- C10 (witness): a booking turn: the caller's `custom_key` entry reads
unchanged and its `session_id` entry is still present afterwards. -/
theorem C10_witness :
    ∃ m, (lambda_handler exDb exEvBook exNow true "U"
        (fun _ => "NA")).1.sessionAttributes = some m ∧
      dictGet m "custom_key" = dictGet exEvBook.sessionAttributes "custom_key" ∧
      (dictGet m "session_id").isSome = true := by
  rcases C10_session_keys_preserved exDb exEvBook exNow true "U" (fun _ => "NA")
      "ag" "book_appointment_slot" rfl rfl with ⟨m, hm, hne, hsome⟩
  exact ⟨m, hm, hne "custom_key" (by decide) (by decide),
    hsome "session_id" (by decide)⟩
